import Mathlib

/-!
Formal model of the AI Interview Assistant frontend.

The definitions below are a shallow embedding of the interview-session logic
of src/app.py (function ai_interview) and of the helpers in src/utils.py
(make_api_request, save_transcript_to_file, clear_transcript_file,
evaluate_answer).  Streamlit reruns the page script on every user
interaction; each interaction is modelled as one state-transition function
on an explicit Session record, and the set of states one browser session
can pass through is the inductive Reachable predicate below.
-/

namespace AIInterview

/-- A parsed JSON object, modelled as a flat association list of string
fields; this is enough for the .get lookups the code performs. -/
abbrev JsonObj := List (String × String)

/-- An HTTP response as seen by make_api_request: its status code, its raw
body text, and the result of attempting to parse the body as JSON (none
when the body is not valid JSON, in which case response.json() raises in
the Python code). -/
structure HttpResponse where
  status_code : Nat
  text : String
  json : Option JsonObj
deriving DecidableEq, Repr

/-- The possible outcomes of the underlying requests.post call in
make_api_request (src/utils.py lines 20-33): a response arrived, the
request timed out, or the connection failed. -/
inductive ApiOutcome where
  | response (r : HttpResponse)
  | timeout
  | connectionError
deriving DecidableEq, Repr

/-- The exception raised by make_api_request: either an Exception carrying
the message string built by the code, or the decoding error raised by
response.json() on a status-200 body that is not valid JSON (whose message
is produced by the JSON library from the body text, then re-raised as
Exception(str(e)) by the final handler at src/utils.py line 35). -/
inductive ApiError where
  | msg (s : String)
  | jsonDecode (bodyText : String)
deriving DecidableEq, Repr

/-- Shallow embedding of make_api_request (src/utils.py lines 15-35).
Status 200 with a parseable body returns the parsed JSON.  Status 200 with
an unparseable body raises the JSON-decoding error (response.json() raises
inside the try block, and the generic handler re-raises it).  A non-200
status raises Exception with the body's detail field when the body parses
as JSON (default "HTTP <status>"), otherwise "HTTP <status>: <text>".
A timeout or connection failure raises the corresponding fixed message. -/
def make_api_request (o : ApiOutcome) : Except ApiError JsonObj :=
  match o with
  | .timeout => .error (.msg "Request timed out.")
  | .connectionError => .error (.msg "Cannot connect to the backend server.")
  | .response r =>
    if r.status_code = 200 then
      match r.json with
      | some j => .ok j
      | none => .error (.jsonDecode r.text)
    else
      match r.json with
      | some j => .error (.msg ((j.lookup "detail").getD ("HTTP " ++ toString r.status_code)))
      | none => .error (.msg ("HTTP " ++ toString r.status_code ++ ": " ++ r.text))

/-- The state of the transcript log file on disk: whether the file exists,
and its textual content when it does. -/
structure FileState where
  fileExists : Bool
  content : String
deriving DecidableEq, Repr

/-- The exceptions raised by evaluate_answer (src/utils.py lines 125-136):
FileNotFoundError, ValueError for an empty transcript, and the generic
Exception for a missing API key.  Each carries its message string. -/
inductive EvalError where
  | fileNotFound (m : String)
  | emptyTranscript (m : String)
  | missingKey (m : String)
deriving DecidableEq, Repr

/-- The LLMChain value returned by evaluate_answer on success
(src/utils.py lines 178-181): a prompt over the single input variable
"transcript" together with the chat model it will call.  The prompt text
itself is static content with no behavioral role in the claims. -/
structure LLMChain where
  prompt_input : String
  model_name : String
  key : String
deriving DecidableEq, Repr

/-- The characters Python's str.strip removes by default. -/
def isPySpace (c : Char) : Bool :=
  c = ' ' || c = '\t' || c = '\n' || c = '\x0d' || c = '\x0b' || c = '\x0c'

/-- Python's str.strip with no argument: leading and trailing whitespace
removed (models `f.read().strip()`, src/utils.py line 129). -/
def pyStrip (s : String) : String :=
  String.mk (((s.data.dropWhile isPySpace).reverse.dropWhile isPySpace).reverse)

/-- Python's `a or b` on optional strings, where None and the empty string
are falsy (models `api_key or os.getenv("OPENAI_API_KEY")`,
src/utils.py line 134). -/
def pyOr (a b : Option String) : Option String :=
  match a with
  | some s => if s = "" then b else some s
  | none => b

/-- Shallow embedding of evaluate_answer (src/utils.py lines 119-181).
The file system is passed explicitly as a FileState; api_key is the
argument and env_key models os.getenv("OPENAI_API_KEY").  Raises
FileNotFoundError when the file is missing, ValueError when the stripped
content is empty (the code strips before testing, and its own message
calls this case an empty transcript), Exception when no key is available,
and otherwise builds and returns the evaluation chain. -/
def evaluate_answer (file_path : String) (fs : FileState)
    (api_key env_key : Option String) : Except EvalError LLMChain :=
  if fs.fileExists = false then
    .error (.fileNotFound ("Transcript file not found: " ++ file_path))
  else
    let transcript_text := pyStrip fs.content
    if transcript_text = "" then
      .error (.emptyTranscript "Interview transcript is empty.")
    else
      match pyOr api_key env_key with
      | some key =>
        if key = "" then
          .error (.missingKey "OPENAI_API_KEY not found. Provide it via env or pass api_key.")
        else
          .ok { prompt_input := "transcript", model_name := "gpt-4o-mini", key := key }
      | none =>
        .error (.missingKey "OPENAI_API_KEY not found. Provide it via env or pass api_key.")

instance {ε α : Type} [DecidableEq ε] [DecidableEq α] : DecidableEq (Except ε α) :=
  fun a b =>
    match a, b with
    | .ok x, .ok y => decidable_of_iff (x = y) (by simp)
    | .ok _, .error _ => isFalse (by simp)
    | .error _, .ok _ => isFalse (by simp)
    | .error e, .error f => decidable_of_iff (e = f) (by simp)

/-- The transcript file path (imported from config.py, which is not part of
src/; the concrete path value plays no role in any claim). -/
def TRANSCRIPT_FILE : String := "interview_transcript.txt"

/-- The per-session state of the ai_interview page (src/app.py lines
136-212): the questions list, num_questions, current_q and transcripts
entries of st.session_state, together with the content of the external
transcript log file written by save_transcript_to_file. -/
structure Session where
  questions : List String
  num_questions : Nat
  current_q : Nat
  transcripts : List (String × String)
  transcript_file : String
deriving DecidableEq, Repr

/-- One serialized block of the transcript log: "Q: <question>\nA: <answer>\n\n"
(the two writes of src/utils.py lines 109-110). -/
def entryBlock (question answer : String) : String :=
  "Q: " ++ question ++ "\n" ++ "A: " ++ answer ++ "\n\n"

/-- Shallow embedding of save_transcript_to_file (src/utils.py lines
106-110): appending one question/answer block to the log content. -/
def save_transcript_to_file (log question answer : String) : String :=
  log ++ entryBlock question answer

/-- Shallow embedding of clear_transcript_file (src/utils.py lines
113-116): the log content is overwritten with the empty string. -/
def clear_transcript_file : String := ""

/-- The serialization of an in-memory transcript as the log file records
it: the concatenation of its entry blocks in order. -/
def serializeTranscript (ts : List (String × String)) : String :=
  ts.foldl (fun acc e => acc ++ entryBlock e.1 e.2) ""

/-- The number_input interaction plus the truncation line (src/app.py lines
150-162), which run on every rerun of the page: the requested count is
clamped by the widget to the range [1, len(questions)], stored in
num_questions, and the questions list is truncated to that prefix. -/
def setNumQuestions (s : Session) (requested : Nat) : Session :=
  { s with num_questions := max 1 (min requested s.questions.length),
           questions := s.questions.take (max 1 (min requested s.questions.length)) }

/-- The first rerun of the ai_interview page for a fresh session: current_q
and transcripts are initialized to 0 and [] (src/app.py lines 167-170), the
log starts empty, and lines 150-162 fix num_questions from the requested
count and truncate the questions list. -/
def initSession (qs : List String) (requested : Nat) : Session :=
  setNumQuestions
    { questions := qs, num_questions := 0, current_q := 0, transcripts := [],
      transcript_file := "" } requested

/-- The "Start Question" button (src/app.py lines 177-178): speak_tts only
synthesizes and plays audio; no session field and no file is touched, so
as a state transformer it is the identity. -/
def playQuestion (s : Session) : Session := s

/-- The text handed to the speech-synthesis collaborator by the "Start
Question" button: the question at the current cursor (src/app.py line 174). -/
def ttsText (s : Session) : Option String := s.questions[s.current_q]?

/-- The "Submit Answer" interaction (src/app.py lines 180-190).  The audio
argument is the transcription the speech-to-text collaborator would return
for the captured audio, none when no audio was captured (in which case the
submit button is not even rendered and nothing happens).  When the
interview is in progress (current_q < num_questions) and audio is present:
the (question, answer) pair is appended to transcripts, the same pair is
appended to the log file, and current_q is incremented.  The inner none
branch mirrors the IndexError the page would raise when current_q is out
of range of the questions list; it is unreachable because lines 150-162
keep num_questions equal to len(questions) on every rerun. -/
def submitAnswer (s : Session) (audio : Option String) : Session :=
  match audio with
  | none => s
  | some answer_text =>
    if s.current_q < s.num_questions then
      match s.questions[s.current_q]? with
      | some question =>
        { s with
          transcripts := s.transcripts ++ [(question, answer_text)],
          transcript_file := save_transcript_to_file s.transcript_file question answer_text,
          current_q := s.current_q + 1 }
      | none => s
    else s

/-- The "END Interview" button (src/app.py lines 209-212): current_q is set
to 0 and transcripts to []; nothing else is touched (in particular,
clear_transcript_file is not called on this path). -/
def resetSession (s : Session) : Session :=
  { s with current_q := 0, transcripts := [] }

/-- The "Generate Results" button (src/app.py lines 196-208): the log file
(which exists, having been written by every submit) is handed to
evaluate_answer; on success the chain runs and clear_transcript_file
truncates the log; on an exception the page errors out with no state
change (there is no try/except around this block). -/
def generateResults (s : Session) (api_key env_key : Option String) : Session :=
  match evaluate_answer TRANSCRIPT_FILE
      { fileExists := true, content := s.transcript_file } api_key env_key with
  | .ok _ => { s with transcript_file := clear_transcript_file }
  | .error _ => s

/-- The interactions available while a run is in progress, i.e. everything
except the two Complete-only buttons: replaying or playing a question,
submitting (with or without captured audio), and the ever-present
number_input rerun. -/
inductive RunStep : Session → Session → Prop
  | play (s : Session) : RunStep s (playQuestion s)
  | submit (s : Session) (audio : Option String) : RunStep s (submitAnswer s audio)
  | choose (s : Session) (n : Nat) : RunStep s (setNumQuestions s n)

/-- Any single user interaction with the ai_interview page: a run step, or
one of the two buttons of the Complete branch (src/app.py lines 193-212),
which are rendered only when current_q has reached num_questions. -/
inductive Step : Session → Session → Prop
  | run {s t : Session} : RunStep s t → Step s t
  | reset (s : Session) : s.num_questions ≤ s.current_q → Step s (resetSession s)
  | results (s : Session) (k e : Option String) :
      s.num_questions ≤ s.current_q → Step s (generateResults s k e)

/-- Session states reachable through run steps alone (no reset, no
evaluation), starting from a fresh session over a nonempty questions list. -/
inductive RunReachable : Session → Prop
  | init (qs : List String) (n : Nat) : qs ≠ [] → RunReachable (initSession qs n)
  | step {s t : Session} : RunReachable s → RunStep s t → RunReachable t

/-- All session states reachable through any sequence of interactions,
starting from a fresh session over a nonempty questions list (the page
returns early at src/app.py lines 145-147 when there are no questions). -/
inductive Reachable : Session → Prop
  | init (qs : List String) (n : Nat) : qs ≠ [] → Reachable (initSession qs n)
  | step {s t : Session} : Reachable s → Step s t → Reachable t

/-- The structural invariant of reachable session states: num_questions
always equals the (truncated) questions length and is at least 1, the
transcript length always equals the cursor, and every transcript entry
whose index still lies inside the questions list records that question. -/
def SessionInv (s : Session) : Prop :=
  s.num_questions = s.questions.length ∧
  1 ≤ s.num_questions ∧
  s.transcripts.length = s.current_q ∧
  ∀ i, i < s.current_q → i < s.questions.length →
    s.transcripts[i]?.map Prod.fst = s.questions[i]?

theorem setNumQuestions_inv (s : Session) (n : Nat)
    (hlen : 1 ≤ s.questions.length)
    (h3 : s.transcripts.length = s.current_q)
    (h4 : ∀ i, i < s.current_q → i < s.questions.length →
      s.transcripts[i]?.map Prod.fst = s.questions[i]?) :
    SessionInv (setNumQuestions s n) := by
  have hle : max 1 (min n s.questions.length) ≤ s.questions.length :=
    max_le hlen (min_le_right _ _)
  unfold SessionInv setNumQuestions
  dsimp only
  refine ⟨?_, le_max_left _ _, h3, ?_⟩
  · rw [List.length_take]
    omega
  · intro i hi hil
    rw [List.length_take] at hil
    have hil2 : i < max 1 (min n s.questions.length) := lt_of_lt_of_le hil (min_le_left _ _)
    rw [List.getElem?_take_of_lt hil2]
    exact h4 i hi (lt_of_lt_of_le hil2 hle)

theorem submitAnswer_advance (s : Session) (ans : String)
    (h1 : s.num_questions = s.questions.length)
    (hc : s.current_q < s.num_questions) :
    submitAnswer s (some ans) =
      { s with
        transcripts := s.transcripts ++ [(s.questions.get ⟨s.current_q, h1 ▸ hc⟩, ans)],
        transcript_file := save_transcript_to_file s.transcript_file
          (s.questions.get ⟨s.current_q, h1 ▸ hc⟩) ans,
        current_q := s.current_q + 1 } := by
  have hlt : s.current_q < s.questions.length := h1 ▸ hc
  have hget : s.questions[s.current_q]? = some (s.questions.get ⟨s.current_q, hlt⟩) := by
    simp [List.getElem?_eq_getElem hlt]
  simp [submitAnswer, hc, hget]

theorem submitAnswer_inv (s : Session) (a : Option String) (h : SessionInv s) :
    SessionInv (submitAnswer s a) := by
  obtain ⟨h1, h2, h3, h4⟩ := h
  cases a with
  | none => exact ⟨h1, h2, h3, h4⟩
  | some ans =>
    by_cases hc : s.current_q < s.num_questions
    · have hlt : s.current_q < s.questions.length := h1 ▸ hc
      rw [submitAnswer_advance s ans h1 hc]
      unfold SessionInv
      dsimp only
      refine ⟨h1, h2, by simp [h3], ?_⟩
      intro i hi hil
      rcases Nat.lt_or_ge i s.current_q with hlt2 | hge
      · rw [List.getElem?_append_left (by rw [h3]; exact hlt2)]
        exact h4 i hlt2 hil
      · have hieq : i = s.transcripts.length := by omega
        subst hieq
        rw [List.getElem?_concat_length]
        simp [h3, List.getElem?_eq_getElem hlt]
    · have hnone : submitAnswer s (some ans) = s := by
        simp [submitAnswer, hc]
      rw [hnone]
      exact ⟨h1, h2, h3, h4⟩

theorem runStep_inv {s t : Session} (h : SessionInv s) (hstep : RunStep s t) :
    SessionInv t := by
  cases hstep with
  | play => exact h
  | submit audio => exact submitAnswer_inv s audio h
  | choose n =>
    obtain ⟨h1, h2, h3, h4⟩ := h
    exact setNumQuestions_inv s n (h1 ▸ h2) h3 h4

theorem generateResults_frame (s : Session) (k e : Option String) :
    (generateResults s k e).questions = s.questions ∧
    (generateResults s k e).num_questions = s.num_questions ∧
    (generateResults s k e).current_q = s.current_q ∧
    (generateResults s k e).transcripts = s.transcripts := by
  unfold generateResults
  split <;> exact ⟨rfl, rfl, rfl, rfl⟩

theorem step_inv {s t : Session} (h : SessionInv s) (hstep : Step s t) :
    SessionInv t := by
  cases hstep with
  | run hr => exact runStep_inv h hr
  | reset hg =>
    exact ⟨h.1, h.2.1, rfl, fun i hi _ => (Nat.not_lt_zero i hi).elim⟩
  | results k e hg =>
    obtain ⟨hq, hn, hc, ht⟩ := generateResults_frame s k e
    refine ⟨?_, ?_, ?_, ?_⟩
    · rw [hn, hq]; exact h.1
    · rw [hn]; exact h.2.1
    · rw [ht, hc]; exact h.2.2.1
    · intro i hi hil
      rw [ht, hq]
      rw [hc] at hi
      rw [hq] at hil
      exact h.2.2.2 i hi hil

theorem initSession_inv (qs : List String) (n : Nat) (h : qs ≠ []) :
    SessionInv (initSession qs n) :=
  setNumQuestions_inv _ n (List.length_pos.mpr h) rfl
    (fun i hi _ => (Nat.not_lt_zero i hi).elim)

theorem reachable_inv {s : Session} (h : Reachable s) : SessionInv s := by
  induction h with
  | init qs n hq => exact initSession_inv qs n hq
  | step _ hstep ih => exact step_inv ih hstep

theorem runReachable_reachable {s : Session} (h : RunReachable s) : Reachable s := by
  induction h with
  | init qs n hq => exact Reachable.init qs n hq
  | step _ hstep ih => exact Reachable.step ih (Step.run hstep)

theorem serializeTranscript_append (l : List (String × String)) (e : String × String) :
    serializeTranscript (l ++ [e]) = serializeTranscript l ++ entryBlock e.1 e.2 := by
  unfold serializeTranscript
  rw [List.foldl_append]
  rfl

theorem runReachable_log {s : Session} (h : RunReachable s) :
    s.transcript_file = serializeTranscript s.transcripts := by
  induction h with
  | init qs n hq => rfl
  | step hr hstep ih =>
    rename_i s t
    have hinv := reachable_inv (runReachable_reachable hr)
    cases hstep with
    | play => exact ih
    | choose n => exact ih
    | submit audio =>
      cases audio with
      | none => exact ih
      | some ans =>
        by_cases hc : s.current_q < s.num_questions
        · rw [submitAnswer_advance s ans hinv.1 hc]
          show s.transcript_file ++ entryBlock _ ans = _
          rw [serializeTranscript_append, ih]
        · have hnone : submitAnswer s (some ans) = s := by
            simp [submitAnswer, hc]
          rw [hnone]
          exact ih

theorem submitAnswer_fields (s : Session) (ans : String)
    (h1 : s.num_questions = s.questions.length)
    (hc : s.current_q < s.num_questions) :
    (submitAnswer s (some ans)).current_q = s.current_q + 1 ∧
    (submitAnswer s (some ans)).transcripts.length = s.transcripts.length + 1 ∧
    (submitAnswer s (some ans)).num_questions = s.num_questions ∧
    (submitAnswer s (some ans)).questions = s.questions := by
  rw [submitAnswer_advance s ans h1 hc]
  exact ⟨rfl, by simp, rfl, rfl⟩

/-- A sequence of successful submit-answer interactions, one per element of
answers (each element being the transcription returned for the captured
audio of that turn). -/
def submitRun (answers : List String) (s : Session) : Session :=
  answers.foldl (fun t a => submitAnswer t (some a)) s

theorem submitRun_cons (a : String) (as : List String) (s : Session) :
    submitRun (a :: as) s = submitRun as (submitAnswer s (some a)) := rfl

theorem submitRun_fields (answers : List String) (s : Session)
    (h1 : s.num_questions = s.questions.length)
    (h : s.current_q + answers.length ≤ s.num_questions) :
    (submitRun answers s).current_q = s.current_q + answers.length ∧
    (submitRun answers s).transcripts.length
      = s.transcripts.length + answers.length ∧
    (submitRun answers s).num_questions = s.num_questions := by
  induction answers generalizing s with
  | nil => exact ⟨rfl, rfl, rfl⟩
  | cons a as ih =>
    have hlc : (a :: as).length = as.length + 1 := rfl
    have hc : s.current_q < s.num_questions := by omega
    obtain ⟨f1, f2, f3, f4⟩ := submitAnswer_fields s a h1 hc
    rw [submitRun_cons]
    obtain ⟨g1, g2, g3⟩ := ih (submitAnswer s (some a))
      (by rw [f3, f4]; exact h1) (by rw [f1, f3]; omega)
    exact ⟨by rw [g1, f1]; omega, by rw [g2, f2]; omega, by rw [g3, f3]⟩

/-- Claim C1: for every activeCount of at least 1 (at most the number of
available questions), starting from the initial interview state (cursor 0,
transcript empty), after exactly activeCount successful submit-answer
transitions the session is in the Complete state (the cursor has reached
num_questions, so the page renders the completion branch) and the
transcript length equals activeCount equals the cursor. -/
theorem c1_complete_after_activeCount_submits (qs : List String) (n : Nat)
    (answers : List String) (h1 : 1 ≤ n) (h2 : n ≤ qs.length)
    (hlen : answers.length = n) :
    (submitRun answers (initSession qs n)).num_questions ≤
        (submitRun answers (initSession qs n)).current_q ∧
    (submitRun answers (initSession qs n)).current_q = n ∧
    (submitRun answers (initSession qs n)).transcripts.length = n := by
  have hq : qs ≠ [] := by
    intro hnil
    rw [hnil] at h2
    simp at h2
    omega
  have hnum : (initSession qs n).num_questions = n := by
    show max 1 (min n qs.length) = n
    omega
  have hinv := initSession_inv qs n hq
  have hcq : (initSession qs n).current_q = 0 := rfl
  have htl : (initSession qs n).transcripts.length = 0 := rfl
  obtain ⟨g1, g2, g3⟩ := submitRun_fields answers (initSession qs n) hinv.1
    (by rw [hcq, hnum, hlen]; omega)
  rw [hcq, hlen] at g1
  rw [htl, hlen] at g2
  rw [hnum] at g3
  exact ⟨by omega, by omega, by omega⟩

/-- Witness for claim C1 at a concrete two-question interview. -/
theorem c1_witness :
    (1 ≤ 2 ∧ 2 ≤ (["q0", "q1"] : List String).length ∧
      (["a0", "a1"] : List String).length = 2) ∧
    ((submitRun ["a0", "a1"] (initSession ["q0", "q1"] 2)).num_questions ≤
        (submitRun ["a0", "a1"] (initSession ["q0", "q1"] 2)).current_q ∧
      (submitRun ["a0", "a1"] (initSession ["q0", "q1"] 2)).current_q = 2 ∧
      (submitRun ["a0", "a1"] (initSession ["q0", "q1"] 2)).transcripts.length = 2) :=
  ⟨⟨by decide, by decide, by decide⟩,
    c1_complete_after_activeCount_submits ["q0", "q1"] 2 ["a0", "a1"]
      (by decide) (by decide) (by decide)⟩

/-- Claim C2 counterexample: the claim that reset leaves the external log
empty is false on the code.  After one answered question the log holds one
block; the END Interview button clears cursor and transcript but never
calls clear_transcript_file, so the log content survives the reset. -/
theorem c2_counterexample :
    ¬ (∀ s : Session, Reachable s →
        (resetSession s).current_q = 0 ∧ (resetSession s).transcripts = [] ∧
        (resetSession s).transcript_file = "") := by
  intro h
  have hr : Reachable (submitAnswer (initSession ["q0"] 1) (some "a0")) :=
    Reachable.step (Reachable.init _ _ (by decide))
      (Step.run (RunStep.submit _ (some "a0")))
  exact absurd (h _ hr).2.2 (by decide)

/-- Claim C2 (amended): the reset operation, taken from any state, restores
cursor 0 and an empty transcript, but leaves the external transcript log
content unchanged; the log is cleared only on the Generate Results path. -/
theorem c2_reset_restores_memory_not_log (s : Session) :
    (resetSession s).current_q = 0 ∧ (resetSession s).transcripts = [] ∧
    (resetSession s).transcript_file = s.transcript_file :=
  ⟨rfl, rfl, rfl⟩

/-- Witness for the amended claim C2 at a concrete session. -/
theorem c2_witness :
    (resetSession (submitAnswer (initSession ["q0"] 1) (some "a0"))).current_q = 0 ∧
    (resetSession (submitAnswer (initSession ["q0"] 1) (some "a0"))).transcripts = [] ∧
    (resetSession (submitAnswer (initSession ["q0"] 1) (some "a0"))).transcript_file =
      (submitAnswer (initSession ["q0"] 1) (some "a0")).transcript_file :=
  c2_reset_restores_memory_not_log (submitAnswer (initSession ["q0"] 1) (some "a0"))

/-- Claim C3: at every observation point of an interview session the
transcript length equals the cursor: every increment of current_q is
paired with exactly one transcripts append and conversely. -/
theorem c3_transcript_length_eq_cursor (s : Session) (h : Reachable s) :
    s.transcripts.length = s.current_q :=
  (reachable_inv h).2.2.1

/-- Witness for claim C3 at a concrete reachable session. -/
theorem c3_witness :
    (submitAnswer (initSession ["q0"] 1) (some "a0")).transcripts.length =
      (submitAnswer (initSession ["q0"] 1) (some "a0")).current_q :=
  c3_transcript_length_eq_cursor _
    (Reachable.step (Reachable.init _ _ (by decide))
      (Step.run (RunStep.submit _ (some "a0"))))

/-- Claim C4 counterexample: the unrestricted alignment claim fails on the
code, because the number input keeps running after the run has started and
truncates the questions list.  Answer both questions of a two-question
run, then lower the count to 1: the second transcript entry records the
question "q1", but index 1 no longer exists in the questions list. -/
theorem c4_counterexample :
    ¬ (∀ s : Session, Reachable s → ∀ i, i < s.current_q →
        s.transcripts[i]?.map Prod.fst = s.questions[i]?) := by
  intro h
  have h0 : Reachable (initSession ["q0", "q1"] 2) :=
    Reachable.init _ _ (by decide)
  have h1 : Reachable (submitAnswer (initSession ["q0", "q1"] 2) (some "a0")) :=
    Reachable.step h0 (Step.run (RunStep.submit _ (some "a0")))
  have h2 : Reachable (submitAnswer
      (submitAnswer (initSession ["q0", "q1"] 2) (some "a0")) (some "a1")) :=
    Reachable.step h1 (Step.run (RunStep.submit _ (some "a1")))
  have h3 : Reachable (setNumQuestions (submitAnswer
      (submitAnswer (initSession ["q0", "q1"] 2) (some "a0")) (some "a1")) 1) :=
    Reachable.step h2 (Step.run (RunStep.choose _ 1))
  exact absurd (h _ h3 1 (by decide)) (by decide)

/-- Claim C4 (amended): for every i below the cursor that still indexes
into the (possibly truncated) questions list, transcript entry i records
exactly the question at index i, in order.  Equivalently, every recorded
answer is paired with the question it was asked for; only a mid-run
decrease of the question count can remove later questions from the list
while their transcript entries remain. -/
theorem c4_transcript_question_alignment (s : Session) (h : Reachable s) :
    ∀ i, i < s.current_q → i < s.questions.length →
      s.transcripts[i]?.map Prod.fst = s.questions[i]? :=
  (reachable_inv h).2.2.2

/-- Witness for the amended claim C4 at a concrete reachable session. -/
theorem c4_witness :
    (submitAnswer (initSession ["q0"] 1) (some "a0")).transcripts[0]?.map Prod.fst =
      (submitAnswer (initSession ["q0"] 1) (some "a0")).questions[0]? :=
  c4_transcript_question_alignment _
    (Reachable.step (Reachable.init _ _ (by decide))
      (Step.run (RunStep.submit _ (some "a0"))))
    0 (by decide) (by decide)

/-- Claim C5 counterexample: the log does not always mirror the in-memory
transcript of the most recent session.  After a completed one-question run
the END Interview reset clears the in-memory transcript but leaves the
serialized block in the log, so the two disagree. -/
theorem c5_counterexample :
    ¬ (∀ s : Session, Reachable s →
        s.transcript_file = serializeTranscript s.transcripts) := by
  intro h
  have h1 : Reachable (submitAnswer (initSession ["q0"] 1) (some "a0")) :=
    Reachable.step (Reachable.init _ _ (by decide))
      (Step.run (RunStep.submit _ (some "a0")))
  have hr : Reachable (resetSession (submitAnswer (initSession ["q0"] 1) (some "a0"))) :=
    Reachable.step h1 (Step.reset _ (by decide))
  exact absurd (h _ hr) (by decide)

/-- Claim C5 (amended): at every state reached through run interactions
alone (playing questions, submitting answers, choosing the count — no
reset and no evaluation), the external log content equals the
serialization of the in-memory transcript as repeating question/answer
blocks appended in transcript order.  Reset leaves the log holding the
previous transcript's serialization, and a successful evaluation clears
the log while the in-memory transcript survives. -/
theorem c5_log_matches_transcript_during_run (s : Session)
    (h : RunReachable s) :
    s.transcript_file = serializeTranscript s.transcripts :=
  runReachable_log h

/-- Witness for the amended claim C5 at a concrete run state. -/
theorem c5_witness :
    (submitAnswer (initSession ["q0"] 1) (some "a0")).transcript_file =
      serializeTranscript (submitAnswer (initSession ["q0"] 1) (some "a0")).transcripts :=
  c5_log_matches_transcript_during_run _
    (RunReachable.step (RunReachable.init _ _ (by decide))
      (RunStep.submit _ (some "a0")))

/-- Claim C6 counterexample: changing the question count after the run has
started is neither rejected nor ignored.  After one answered question of a
two-question run (cursor 1), requesting count 1 changes num_questions from
2 to 1 (and truncates the questions list). -/
theorem c6_counterexample :
    ¬ (∀ (s : Session) (n : Nat), Reachable s → 0 < s.current_q →
        (setNumQuestions s n).num_questions = s.num_questions ∧
        (setNumQuestions s n).questions = s.questions) := by
  intro h
  have hr : Reachable (submitAnswer (initSession ["q0", "q1"] 2) (some "a0")) :=
    Reachable.step (Reachable.init _ _ (by decide))
      (Step.run (RunStep.submit _ (some "a0")))
  exact absurd (h _ 1 hr (by decide)).1 (by decide)

/-- Claim C6 (amended): the number input stays active on every rerun, so a
change of activeCount after the run has started takes effect: any
requested value inside the clamp range [1, len(questions)] becomes the new
num_questions and truncates the questions list to that prefix, even when
the cursor is already positive. -/
theorem c6_midrun_change_takes_effect (s : Session) (n : Nat)
    (h1 : 1 ≤ n) (h2 : n ≤ s.questions.length) (_h3 : 0 < s.current_q) :
    (setNumQuestions s n).num_questions = n ∧
    (setNumQuestions s n).questions = s.questions.take n := by
  have hn : max 1 (min n s.questions.length) = n := by omega
  constructor
  · show max 1 (min n s.questions.length) = n
    exact hn
  · show s.questions.take (max 1 (min n s.questions.length)) = s.questions.take n
    rw [hn]

/-- Witness for the amended claim C6 at a concrete mid-run session. -/
theorem c6_witness :
    (1 ≤ 1 ∧ 1 ≤ (submitAnswer (initSession ["q0", "q1"] 2) (some "a0")).questions.length ∧
      0 < (submitAnswer (initSession ["q0", "q1"] 2) (some "a0")).current_q) ∧
    ((setNumQuestions (submitAnswer (initSession ["q0", "q1"] 2) (some "a0")) 1).num_questions = 1 ∧
      (setNumQuestions (submitAnswer (initSession ["q0", "q1"] 2) (some "a0")) 1).questions =
        (submitAnswer (initSession ["q0", "q1"] 2) (some "a0")).questions.take 1) :=
  ⟨⟨by decide, by decide, by decide⟩,
    c6_midrun_change_takes_effect (submitAnswer (initSession ["q0", "q1"] 2) (some "a0")) 1
      (by decide) (by decide) (by decide)⟩

/-- Claim C7: with an API key available (as the page guarantees before the
interview starts), requesting an evaluation raises a clear error exactly
when the transcript log file is missing or its content is empty after
stripping (the condition the code itself calls an empty transcript), and
otherwise evaluate_answer returns the evaluation chain. -/
theorem c7_evaluate_answer_error_iff (p : String) (fs : FileState)
    (key : String) (env : Option String) (hk : key ≠ "") :
    ((∃ e, evaluate_answer p fs (some key) env = .error e) ↔
      (fs.fileExists = false ∨ pyStrip fs.content = "")) ∧
    (fs.fileExists = true → pyStrip fs.content ≠ "" →
      evaluate_answer p fs (some key) env =
        .ok { prompt_input := "transcript", model_name := "gpt-4o-mini", key := key }) := by
  unfold evaluate_answer
  by_cases hf : fs.fileExists = false
  · simp [hf]
  · have hft : fs.fileExists = true := by
      cases hfe : fs.fileExists
      · exact absurd hfe hf
      · rfl
    by_cases hs : pyStrip fs.content = ""
    · simp [hft, hs]
    · have hor : pyOr (some key) env = some key := by simp [pyOr, hk]
      simp [hft, hs, hor, hk]

/-- Witness for claim C7 at a concrete one-block transcript file. -/
theorem c7_witness :
    ("k" : String) ≠ "" ∧
    (((∃ e, evaluate_answer "t" ⟨true, "Q: q\nA: a\n\n"⟩ (some "k") none = .error e) ↔
        ((true : Bool) = false ∨ pyStrip "Q: q\nA: a\n\n" = "")) ∧
      ((true : Bool) = true → pyStrip "Q: q\nA: a\n\n" ≠ "" →
        evaluate_answer "t" ⟨true, "Q: q\nA: a\n\n"⟩ (some "k") none =
          .ok { prompt_input := "transcript", model_name := "gpt-4o-mini", key := "k" })) :=
  ⟨by decide, c7_evaluate_answer_error_iff "t" ⟨true, "Q: q\nA: a\n\n"⟩ "k" none (by decide)⟩

/-- Claim C8: non-advancing user actions leave the session unchanged:
submitting with no captured audio is the identity on the session, and
re-triggering the play-question action never changes the cursor and never
duplicates transcript entries (it only re-emits audio). -/
theorem c8_noop_frame (s : Session) :
    submitAnswer s none = s ∧ playQuestion s = s :=
  ⟨rfl, rfl⟩

/-- Witness for claim C8 at a concrete session. -/
theorem c8_witness :
    submitAnswer (initSession ["q0"] 1) none = initSession ["q0"] 1 ∧
    playQuestion (initSession ["q0"] 1) = initSession ["q0"] 1 :=
  c8_noop_frame (initSession ["q0"] 1)

/-- Claim C9: on every reachable session state, activeCount satisfies
1 ≤ num_questions ≤ len(questions) (in fact equals the questions length,
because the page truncates the list to the chosen prefix), the questions
list in use is nonempty, and any requested count — including 0 — is
clamped by the number input into [1, len(questions)]. -/
theorem c9_activeCount_bounds (s : Session) (h : Reachable s) :
    1 ≤ s.num_questions ∧ s.num_questions = s.questions.length ∧
    s.questions ≠ [] ∧
    ∀ n, 1 ≤ (setNumQuestions s n).num_questions ∧
      (setNumQuestions s n).num_questions ≤ s.questions.length := by
  have hinv := reachable_inv h
  have hlen : 1 ≤ s.questions.length := hinv.1 ▸ hinv.2.1
  refine ⟨hinv.2.1, hinv.1, ?_, ?_⟩
  · intro hnil
    rw [hnil] at hlen
    simp at hlen
  · intro n
    exact ⟨le_max_left _ _, max_le hlen (min_le_right _ _)⟩

/-- Witness for claim C9 at a concrete reachable session, including the
clamping of a requested count of 0. -/
theorem c9_witness :
    1 ≤ (initSession ["q0", "q1"] 2).num_questions ∧
    (initSession ["q0", "q1"] 2).num_questions =
      (initSession ["q0", "q1"] 2).questions.length ∧
    (initSession ["q0", "q1"] 2).questions ≠ [] ∧
    ∀ n, 1 ≤ (setNumQuestions (initSession ["q0", "q1"] 2) n).num_questions ∧
      (setNumQuestions (initSession ["q0", "q1"] 2) n).num_questions ≤
        (initSession ["q0", "q1"] 2).questions.length :=
  c9_activeCount_bounds _ (Reachable.init _ _ (by decide))

/-- Claim C10 counterexample: make_api_request does not return a value for
every status-200 response.  A 200 response whose body is not valid JSON
makes response.json() raise inside the try block, so the call raises
instead of returning. -/
theorem c10_counterexample :
    ¬ (∀ o : ApiOutcome, (∃ j, make_api_request o = .ok j) ↔
        (∃ r, o = .response r ∧ r.status_code = 200)) := by
  intro h
  have h200 : ∃ r, ApiOutcome.response ⟨200, "oops", none⟩ = ApiOutcome.response r ∧
      r.status_code = 200 :=
    ⟨⟨200, "oops", none⟩, rfl, rfl⟩
  obtain ⟨j, hj⟩ := (h (ApiOutcome.response ⟨200, "oops", none⟩)).mpr h200
  have hval : make_api_request (ApiOutcome.response ⟨200, "oops", none⟩) =
      .error (.jsonDecode "oops") := rfl
  rw [hval] at hj
  exact Except.noConfusion hj

/-- Claim C10 (amended): make_api_request returns the parsed JSON body if
and only if the HTTP response status is 200 and the body parses as JSON;
in every other case — non-200 status, unparseable 200 body, timeout, or
connection failure — it raises an exception (carrying the response's
detail message or HTTP status, the decoding error, or the fixed
timeout/connection message) and never returns a value. -/
theorem c10_make_api_request_spec (o : ApiOutcome) :
    ((∃ j, make_api_request o = .ok j) ↔
      (∃ r, o = .response r ∧ r.status_code = 200 ∧ r.json ≠ none)) ∧
    ((¬ ∃ j, make_api_request o = .ok j) → ∃ e, make_api_request o = .error e) ∧
    (make_api_request ApiOutcome.timeout = .error (.msg "Request timed out.")) ∧
    (make_api_request ApiOutcome.connectionError =
      .error (.msg "Cannot connect to the backend server.")) := by
  refine ⟨⟨?_, ?_⟩, ?_, rfl, rfl⟩
  · intro hok
    obtain ⟨j, hj⟩ := hok
    cases o with
    | timeout => simp [make_api_request] at hj
    | connectionError => simp [make_api_request] at hj
    | response r =>
      by_cases h200 : r.status_code = 200
      · cases hjs : r.json with
        | none => simp [make_api_request, h200, hjs] at hj
        | some jv => exact ⟨r, rfl, h200, by rw [hjs]; exact Option.some_ne_none jv⟩
      · cases hjs : r.json with
        | none => simp [make_api_request, h200, hjs] at hj
        | some jv => simp [make_api_request, h200, hjs] at hj
  · intro hr
    obtain ⟨r, ho, h200, hjson⟩ := hr
    subst ho
    cases hjs : r.json with
    | none => exact absurd hjs hjson
    | some jv => exact ⟨jv, by simp [make_api_request, h200, hjs]⟩
  · intro hno
    cases hres : make_api_request o with
    | ok j => exact absurd ⟨j, hres⟩ hno
    | error e => exact ⟨e, rfl⟩

/-- Witness for the amended claim C10 at the timeout outcome. -/
theorem c10_witness :
    make_api_request ApiOutcome.timeout = .error (.msg "Request timed out.") :=
  (c10_make_api_request_spec ApiOutcome.timeout).2.2.1

end AIInterview
